import Mathlib

/-!
Shallow embedding of the handoff routing core of the travel-agent
repository: the human suspension node (`src/app/graph.py`), the agent
wrapper nodes (`src/app/agents/*.py`), the caller-facing entry point
(`src/main.py`), and the handoff capability (modelled from the spec,
since `app/tools/handoff_tool.py` is not in the source tree).
-/

/-- Message roles of the conversation transcript. `human` corresponds to
langchain HumanMessage (json role "user"/"human"), `ai` to AIMessage,
`toolResult` to ToolMessage. -/
inductive Role
  | human
  | ai
  | toolResult
deriving DecidableEq

/-- A transcript message: role plus text content (MessagesState element). -/
structure Message where
  role : Role
  content : String
deriving DecidableEq

/-- A langgraph Command: messages to append to the state plus the
destination node (`goto`). -/
structure Command where
  update : List Message
  goto : String
deriving DecidableEq

/-- The nodes added to the StateGraph in `src/app/graph.py`
(builder.add_node calls, in order). -/
inductive GraphNode
  | supervisor
  | hotel_advisor
  | flights_advisor
  | human
deriving DecidableEq

/-- The string node id each node is registered under. -/
def GraphNode.name : GraphNode → String
  | .supervisor => "supervisor"
  | .hotel_advisor => "hotel_advisor"
  | .flights_advisor => "flights_advisor"
  | .human => "human"

/-- Errors a node body can raise: Python IndexError from indexing an
empty or too-short list, and AssertionError with its message. -/
inductive NodeError
  | indexError
  | assertionError (msg : String)
deriving DecidableEq

/-- The node configuration that `human_node` reads:
config["metadata"]["langgraph_triggers"]. -/
structure Config where
  langgraph_triggers : List String
deriving DecidableEq

/-- The AssertionError message raised in `human_node`. -/
def humanTriggerMsg : String := "Expected exactly 1 trigger in human node"

/-- The separator `human_node` splits a trigger string on. -/
def colonSep : Char := ':'

/-- Splits a character list at every occurrence of `sep`; `acc` holds the
current field in reverse. Models Python str.split with a one-character
separator. -/
def pySplitAux (sep : Char) : List Char → List Char → List (List Char)
  | [], acc => [acc.reverse]
  | c :: cs, acc =>
    if c = sep then acc.reverse :: pySplitAux sep cs []
    else pySplitAux sep cs (c :: acc)

/-- Python's `s.split(sep)` for a single-character separator. -/
def pySplit (s : String) (sep : Char) : List String :=
  (pySplitAux sep s.data []).map List.asString

/-- The edge-metadata trigger string the langgraph engine records when
node `src` transfers control into node `dst` via a Command goto:
the "branch:<source>:<path>:<destination>" convention whose field 1,
after splitting on colons, is the source node id. `human_node` relies on
this external-engine convention to recover the last active agent. -/
def mkTrigger (src dst : String) : String :=
  "branch:" ++ src ++ ":__self__:" ++ dst

/-- `human_node` from `src/app/graph.py`, with the two-phase
interrupt/resume cycle flattened into one function of the resume payload
(langgraph re-executes the node body from the top on resume, with
`interrupt` returning the payload): extract the last message (IndexError
on empty state), read the trigger metadata, raise AssertionError unless
exactly one trigger is present, parse the source agent out of the
trigger, and return a Command appending one HumanMessage built from the
resume input, going to that agent. -/
def human_node (state : List Message) (config : Config)
    (resume_input : String) : Except NodeError Command :=
  match state.getLast? with
  | none => .error .indexError
  | some _last =>
    let user_input := resume_input
    let langgraph_triggers := config.langgraph_triggers
    if langgraph_triggers.length ≠ 1 then
      .error (.assertionError humanTriggerMsg)
    else
      match langgraph_triggers.head? with
      | none => .error .indexError
      | some t =>
        match (pySplit t colonSep).get? 1 with
        | none => .error .indexError
        | some active_agent =>
          .ok { update := [{ role := .human, content := user_input }],
                goto := active_agent }

/-- The suspend half of `human_node`: the value handed to
`interrupt(value=message)` is the content of the last message of the
state; indexing an empty state is an IndexError. -/
def human_node_suspend (state : List Message) : Except NodeError String :=
  match state.getLast? with
  | none => .error .indexError
  | some last => .ok last.content

/-- A fragment of the langgraph engine state the routing claims need:
the transcript, the node(s) scheduled to run next (what
`graph.get_state(...).next` exposes), and the trigger metadata recorded
for the pending task. -/
structure EngineState where
  messages : List Message
  pending : List String
  triggers : List String
deriving DecidableEq

/-- Applying a Command that node `src` produced: append its updates to
the transcript, schedule its `goto` destination, and record the trigger
edge metadata that `human_node` later reads back through
config["metadata"]["langgraph_triggers"] (models the langgraph engine's
per-step bookkeeping). -/
def applyCommand (src : String) (st : EngineState) (cmd : Command) :
    EngineState :=
  { messages := st.messages ++ cmd.update
    pending := [cmd.goto]
    triggers := [mkTrigger src cmd.goto] }

/-- The input `invoke_graph` in `src/main.py` feeds to `graph.stream`:
either a resume Command carrying the user input, or a fresh
message-list input. -/
inductive InputData
  | resumeCmd (value : String)
  | freshMessages (msgs : List Message)
deriving DecidableEq

/-- Input selection of `invoke_graph` (`src/main.py`): resume with the
user input when `len(state.next) > 0 and state.next[0] == 'human'`,
otherwise inject the input as a fresh message with json role "user"
(langchain's human role). -/
def invoke_graph_input (next : List String) (user_input : String) :
    InputData :=
  match next with
  | n :: _ =>
    if n = GraphNode.human.name then .resumeCmd user_input
    else .freshMessages [{ role := .human, content := user_input }]
  | [] => .freshMessages [{ role := .human, content := user_input }]

/-- Where a fresh (non-resuming) run starts:
`builder.add_edge(START, "supervisor")` in `src/app/graph.py`. -/
def start_edge_target : String := GraphNode.supervisor.name

/-- `call_supervisor` from `src/app/agents/supervisor_agent.py`:
`response = supervisor.invoke(state); return Command(update=response,
goto="human")`. The react agent's invoke is external (an opaque
function from state to the response messages). -/
def call_supervisor (supervisor_invoke : List Message → List Message)
    (state : List Message) : Command :=
  { update := supervisor_invoke state, goto := GraphNode.human.name }

/-- `call_flights_advisor` from
`src/app/agents/flights_advisor_agent.py`: invoke the react agent and
return Command(update=response, goto="human"). -/
def call_flights_advisor
    (flights_advisor_invoke : List Message → List Message)
    (state : List Message) : Command :=
  { update := flights_advisor_invoke state, goto := GraphNode.human.name }

/-- `call_hotel_advisor` from `src/app/agents/hotel_advisor_agent.py`:
invoke the react agent and return Command(update=response,
goto="human"). -/
def call_hotel_advisor
    (hotel_advisor_invoke : List Message → List Message)
    (state : List Message) : Command :=
  { update := hotel_advisor_invoke state, goto := GraphNode.human.name }

/-- The keyword arguments each agent module passes to
`model.bind_tools(...)`. -/
structure ToolBinding where
  parallel_tool_calls : Bool
  strict : Bool
deriving DecidableEq

/-- `src/app/agents/supervisor_agent.py`: `model.bind_tools(
supervisor_tools, parallel_tool_calls=False, strict=False)`. -/
def supervisor_binding : ToolBinding :=
  { parallel_tool_calls := false, strict := false }

/-- `src/app/agents/flights_advisor_agent.py`: `model.bind_tools(
flights_advisor_tools, parallel_tool_calls=False, strict=False)`. -/
def flights_advisor_binding : ToolBinding :=
  { parallel_tool_calls := false, strict := false }

/-- `src/app/agents/hotel_advisor_agent.py`: `model.bind_tools(
hotel_advisor_tools, parallel_tool_calls=False, strict=False)`. -/
def hotel_advisor_binding : ToolBinding :=
  { parallel_tool_calls := false, strict := false }

/-- The tool calls a bound model actually emits in one reasoning step,
given the calls the underlying engine requests. Models the OpenAI
tool-choice contract behind the `parallel_tool_calls` flag of
`bind_tools`: with the flag false, at most one tool call is emitted per
step, so of several requested transfer-of-control actions only the
first takes effect and the rest are dropped. -/
def emitted_tool_calls (b : ToolBinding) (requested : List String) :
    List String :=
  if b.parallel_tool_calls then requested else requested.take 1

/-- The node ids statically declared on the StateGraph in
`src/app/graph.py` (the four builder.add_node calls). -/
def declared_nodes : List String :=
  [GraphNode.supervisor.name, GraphNode.hotel_advisor.name,
   GraphNode.flights_advisor.name, GraphNode.human.name]

/-- Errors of the handoff capability. -/
inductive HandoffError
  | configurationError (target : String)
deriving DecidableEq

/-- A constructed handoff capability, bound to its target node id. -/
structure HandoffTool where
  target : String
deriving DecidableEq

/-- Modelled from the spec: `make_handoff_tool` lives in
`app/tools/handoff_tool.py`, which the agent modules import but which
is missing from the source tree. Per spec section 4.1 the target name
is "validated against the fixed node-id set at construction time" and
an unknown target is a construction-time ConfigurationError, so
construction checks membership in the statically declared node set and
fails fast on an unknown name. -/
def make_handoff_tool (agent_name : String) :
    Except HandoffError HandoffTool :=
  if agent_name ∈ declared_nodes then .ok { target := agent_name }
  else .error (.configurationError agent_name)

/-- Modelled from the spec: invoking a constructed handoff capability
during an agent's reasoning step (spec section 4.1) returns a Command
whose destination is the bound target and whose updates carry forward
the acting agent's emitted messages unchanged — a pure control
transfer with no transformation and no extra messages. -/
def invoke_handoff (t : HandoffTool) (emitted : List Message) : Command :=
  { update := emitted, goto := t.target }

/-- The handoff target that claim scenarios use as an unknown name. -/
def billing_name : String := "billing_advisor"

/-- Sample user input for concrete scenario instances (spec section 8). -/
def sample_input : String := "find me a flight"

/-- Sample agent question for concrete scenario instances. -/
def sample_question : String := "which dates?"

/-- Sample resume payload for concrete scenario instances. -/
def sample_answer : String := "June 1 to June 8"

/-- Evaluation of `human_node` on a state with a known last message and
a single trigger whose colon-split has the agent id at field 1. -/
theorem human_node_single_trigger (msgs : List Message) (m : Message)
    (hm : msgs.getLast? = some m) (t input a : String)
    (ha : (pySplit t colonSep).get? 1 = some a) :
    human_node msgs ⟨[t]⟩ input
      = .ok { update := [{ role := Role.human, content := input }],
              goto := a } := by
  have ha' := ha
  rw [List.get?_eq_getElem?] at ha'
  simp [human_node, hm, ha']

/-- C1: every resume of the human node returns a Command that appends
exactly one human-role Message built from the external input, and whose
destination is the agent recovered from the recorded trigger metadata,
which is exactly the agent that transferred control into the
suspension. -/
theorem resume_appends_one_human_message_and_routes_to_suspender
    (A : GraphNode) (hA : A ≠ GraphNode.human)
    (st : EngineState) (cmd : Command)
    (hgoto : cmd.goto = GraphNode.human.name)
    (hne : (applyCommand A.name st cmd).messages ≠ [])
    (input : String) :
    human_node (applyCommand A.name st cmd).messages
      ⟨(applyCommand A.name st cmd).triggers⟩ input
      = .ok { update := [{ role := Role.human, content := input }],
              goto := A.name } := by
  have hm := List.getLast?_eq_getLast_of_ne_nil hne
  refine human_node_single_trigger _ _ hm _ input A.name ?_
  rw [hgoto]
  cases A with
  | supervisor => decide
  | hotel_advisor => decide
  | flights_advisor => decide
  | human => exact absurd rfl hA

/-- Witness for C1: the spec section 8 scenario — flights_advisor
suspends to human with the question, resuming with the dates routes
back to flights_advisor (not supervisor) and appends exactly one human
message with the resume payload. -/
theorem resume_routes_to_suspender_witness :
    human_node
      (applyCommand GraphNode.flights_advisor.name
        { messages := [{ role := Role.human, content := sample_input }],
          pending := [], triggers := [] }
        { update := [{ role := Role.ai, content := sample_question }],
          goto := GraphNode.human.name }).messages
      ⟨(applyCommand GraphNode.flights_advisor.name
        { messages := [{ role := Role.human, content := sample_input }],
          pending := [], triggers := [] }
        { update := [{ role := Role.ai, content := sample_question }],
          goto := GraphNode.human.name }).triggers⟩
      sample_answer
      = .ok { update := [{ role := Role.human, content := sample_answer }],
              goto := GraphNode.flights_advisor.name } :=
  resume_appends_one_human_message_and_routes_to_suspender
    GraphNode.flights_advisor (by decide)
    { messages := [{ role := Role.human, content := sample_input }],
      pending := [], triggers := [] }
    { update := [{ role := Role.ai, content := sample_question }],
      goto := GraphNode.human.name }
    rfl (by decide) sample_answer


/-- C2: the entry point builds a resume Command exactly when the
thread's pending node is the human node (the condition
`len(state.next) > 0 and state.next[0] == 'human'` of `invoke_graph`);
in every other case — a never-seen thread included, whose pending list
is empty — it injects the external input as a fresh human-role message,
and execution begins at the supervisor node (the START edge). -/
theorem invoke_graph_resumes_iff_pending_human
    (next : List String) (u : String) :
    (invoke_graph_input next u = InputData.resumeCmd u
      ↔ next.head? = some GraphNode.human.name)
    ∧ (next.head? ≠ some GraphNode.human.name →
        invoke_graph_input next u
          = InputData.freshMessages [{ role := Role.human, content := u }]
        ∧ start_edge_target = GraphNode.supervisor.name) := by
  cases next with
  | nil => simp [invoke_graph_input, start_edge_target]
  | cons n rest =>
    by_cases h : n = GraphNode.human.name
    · subst h
      simp [invoke_graph_input, start_edge_target]
    · simp [invoke_graph_input, start_edge_target, h]

/-- Witness for C2: a never-seen thread (empty pending list) gets its
input injected as a fresh human message and starts at supervisor. -/
theorem invoke_graph_fresh_thread_witness :
    invoke_graph_input [] sample_input
      = InputData.freshMessages
          [{ role := Role.human, content := sample_input }]
    ∧ start_edge_target = GraphNode.supervisor.name :=
  (invoke_graph_resumes_iff_pending_human [] sample_input).2 (by decide)

/-- C3: when the edge metadata reports more than one concurrently
triggering edge, the human node raises the fatal AssertionError
instead of guessing a destination; and every execution of the node
that returns a Command had exactly one trigger recorded. -/
theorem human_node_multiple_triggers_fatal
    (s : List Message) (c : Config) (i : String) :
    (s ≠ [] → 1 < c.langgraph_triggers.length →
      human_node s c i = .error (.assertionError humanTriggerMsg))
    ∧ ∀ cmd : Command, human_node s c i = .ok cmd →
        c.langgraph_triggers.length = 1 := by
  constructor
  · intro hs hlen
    have hm := List.getLast?_eq_getLast_of_ne_nil hs
    have hne1 : c.langgraph_triggers.length ≠ 1 := by omega
    simp [human_node, hm, hne1]
  · intro cmd hok
    by_cases hlen : c.langgraph_triggers.length = 1
    · exact hlen
    · exfalso
      cases hgl : s.getLast? with
      | none => simp [human_node, hgl] at hok
      | some m => simp [human_node, hgl, hlen] at hok

/-- Witness for C3: with two triggers recorded, the human node fails
with the AssertionError. -/
theorem human_node_multiple_triggers_fatal_witness :
    human_node [{ role := Role.ai, content := sample_question }]
      ⟨[mkTrigger GraphNode.supervisor.name GraphNode.human.name,
        mkTrigger GraphNode.flights_advisor.name GraphNode.human.name]⟩
      sample_answer
      = .error (.assertionError humanTriggerMsg) :=
  (human_node_multiple_triggers_fatal
      [{ role := Role.ai, content := sample_question }]
      ⟨[mkTrigger GraphNode.supervisor.name GraphNode.human.name,
        mkTrigger GraphNode.flights_advisor.name GraphNode.human.name]⟩
      sample_answer).1 (by decide) (by decide)

/-- C4: each of the three agent wrapper nodes, for every reasoning
engine and every input state, returns on the normal (no explicit
handoff) path a Command whose destination is the human node, passing
the engine response through as the update — the wrapper's default
destination is human. -/
theorem agent_wrappers_default_destination_human
    (f g k : List Message → List Message) (s : List Message) :
    (call_supervisor f s).goto = GraphNode.human.name
    ∧ (call_flights_advisor g s).goto = GraphNode.human.name
    ∧ (call_hotel_advisor k s).goto = GraphNode.human.name
    ∧ (call_supervisor f s).update = f s
    ∧ (call_flights_advisor g s).update = g s
    ∧ (call_hotel_advisor k s).update = k s :=
  ⟨rfl, rfl, rfl, rfl, rfl, rfl⟩

/-- C5: under the tool bindings of all three agents
(parallel_tool_calls=False), at most one tool call is emitted per
reasoning step; in particular when the engine requests two or more
transfer-of-control actions in one step, exactly one survives — the
first — and the rest are dropped, so one effective transition
results. -/
theorem single_effective_transition_per_turn (requested : List String) :
    (emitted_tool_calls supervisor_binding requested).length ≤ 1
    ∧ (emitted_tool_calls flights_advisor_binding requested).length ≤ 1
    ∧ (emitted_tool_calls hotel_advisor_binding requested).length ≤ 1
    ∧ (2 ≤ requested.length →
        (emitted_tool_calls supervisor_binding requested).length = 1
        ∧ emitted_tool_calls supervisor_binding requested
            = requested.take 1) := by
  refine ⟨?_, ?_, ?_, fun h => ⟨?_, rfl⟩⟩
  · simp [emitted_tool_calls, supervisor_binding, List.length_take]
  · simp [emitted_tool_calls, flights_advisor_binding, List.length_take]
  · simp [emitted_tool_calls, hotel_advisor_binding, List.length_take]
  · simp [emitted_tool_calls, supervisor_binding, List.length_take]
    omega

/-- Witness for C5: a step requesting handoffs to both advisors emits
exactly the first one. -/
theorem single_effective_transition_witness :
    (emitted_tool_calls supervisor_binding
        [GraphNode.flights_advisor.name,
         GraphNode.hotel_advisor.name]).length = 1
    ∧ emitted_tool_calls supervisor_binding
        [GraphNode.flights_advisor.name, GraphNode.hotel_advisor.name]
      = [GraphNode.flights_advisor.name,
         GraphNode.hotel_advisor.name].take 1 :=
  (single_effective_transition_per_turn
      [GraphNode.flights_advisor.name,
       GraphNode.hotel_advisor.name]).2.2.2 (by decide)

/-- C6: building a handoff capability for the undeclared target
"billing_advisor" fails with a ConfigurationError at construction
time, while the three targets actually constructed in the agent
modules (flights_advisor, hotel_advisor, supervisor) succeed. -/
theorem handoff_unknown_target_configuration_error :
    make_handoff_tool billing_name
      = .error (HandoffError.configurationError billing_name)
    ∧ make_handoff_tool GraphNode.flights_advisor.name
      = .ok { target := GraphNode.flights_advisor.name }
    ∧ make_handoff_tool GraphNode.hotel_advisor.name
      = .ok { target := GraphNode.hotel_advisor.name }
    ∧ make_handoff_tool GraphNode.supervisor.name
      = .ok { target := GraphNode.supervisor.name } :=
  ⟨rfl, rfl, rfl, rfl⟩

/-- C7: invoking a handoff capability carries forward exactly the
acting agent's emitted messages, unchanged, and targets the bound
peer — a pure control transfer that neither appends nor alters
messages. -/
theorem handoff_pure_control_transfer
    (t : HandoffTool) (emitted : List Message) :
    (invoke_handoff t emitted).update = emitted
    ∧ (invoke_handoff t emitted).goto = t.target :=
  ⟨rfl, rfl⟩

/-- C8: on every state with a non-empty message list, the suspend step
of the human node yields the content of the most recently appended
message. -/
theorem suspend_yields_last_message_content
    (s : List Message) (h : s ≠ []) :
    human_node_suspend s = .ok (s.getLast h).content := by
  simp [human_node_suspend, List.getLast?_eq_getLast_of_ne_nil h]

/-- Witness for C8: suspending on a two-message transcript yields the
content of the last message. -/
theorem suspend_yields_last_message_content_witness :
    human_node_suspend
      [{ role := Role.human, content := sample_input },
       { role := Role.ai, content := sample_question }]
      = .ok sample_question :=
  suspend_yields_last_message_content
    [{ role := Role.human, content := sample_input },
     { role := Role.ai, content := sample_question }] (by decide)

/-- C9: the human node demands exactly one triggering edge, not at
most one: with zero triggers recorded it raises the very same
AssertionError as the multiple-trigger case, and a resume returns a
Command only under the precondition that the trigger list has length
exactly 1. -/
theorem human_node_zero_triggers_same_error
    (s : List Message) (i : String) :
    (s ≠ [] →
      human_node s ⟨[]⟩ i = .error (.assertionError humanTriggerMsg))
    ∧ ∀ (c : Config) (cmd : Command), human_node s c i = .ok cmd →
        c.langgraph_triggers.length = 1 := by
  constructor
  · intro hs
    have hm := List.getLast?_eq_getLast_of_ne_nil hs
    simp [human_node, hm]
  · intro c cmd hok
    by_cases hlen : c.langgraph_triggers.length = 1
    · exact hlen
    · exfalso
      cases hgl : s.getLast? with
      | none => simp [human_node, hgl] at hok
      | some m => simp [human_node, hgl, hlen] at hok

/-- Witness for C9: with an empty trigger list the human node fails
with the AssertionError. -/
theorem human_node_zero_triggers_same_error_witness :
    human_node [{ role := Role.ai, content := sample_question }] ⟨[]⟩
      sample_answer
      = .error (.assertionError humanTriggerMsg) :=
  (human_node_zero_triggers_same_error
      [{ role := Role.ai, content := sample_question }]
      sample_answer).1 (by decide)

/-- C10: the human node indexes the last element of the message list
before interrupting, so on an empty transcript both the full node
execution and the suspend step fail with an IndexError, for every
configuration and input — a non-empty transcript is a precondition of
every suspension. -/
theorem human_node_empty_transcript_fails (c : Config) (i : String) :
    human_node [] c i = .error NodeError.indexError
    ∧ human_node_suspend ([] : List Message)
        = .error NodeError.indexError :=
  ⟨rfl, rfl⟩
